import Mathlib

/-!
# Verification of react-md component library claims

Shallow embedding of the components under `src/` of the react-md repository:
`GridCell` (src/unnamed/part_000), `ConditionalPortal`
(packages/portal/src/ConditionalPortal.tsx), `FloatingLabel`
(packages/form/src/label/FloatingLabel.tsx), `Select`
(packages/form/src/select/Select.tsx) and `DemoPage`
(packages/documentation/src/components/Demos/DemoPage.tsx).

JavaScript truthiness of optional values is modelled explicitly; `undefined`
is `Option.none`.
-/

namespace ReactMD

/-- A JS `number | string` value as used by the grid CSS properties. -/
inductive SN where
  | str (s : String)
  | num (n : Int)
deriving DecidableEq, Repr

/-- JS truthiness of an optional boolean prop (`undefined` and `false` are falsy). -/
def optBoolTruthy (b : Option Bool) : Bool := b.getD false

/-- JS truthiness of an optional string prop (`undefined` and `""` are falsy). -/
def optStrTruthy (s : Option String) : Bool :=
  match s with
  | none => false
  | some v => v ≠ ""

/-- JS truthiness of an optional number prop (`undefined` and `0` are falsy). -/
def optNatTruthy (n : Option Nat) : Bool :=
  match n with
  | none => false
  | some v => v ≠ 0

/-- Modelled from the spec: the library composes CSS classes with the BEM
convention (`@react-md/theme`'s `bem`, whose source is not under `src/`; the
spec names the produced token shape, e.g. `rmd-grid__cell--3`).
`bemElement base elt mods` yields the element class `base__elt` followed by
one modifier class `base__elt--key` per modifier entry whose value is truthy,
in entry order. -/
def bemElement (base elt : String) (mods : List (String × Bool)) : List String :=
  (base ++ "__" ++ elt) ::
    mods.filterMap fun kv => if kv.2 then some (base ++ "__" ++ elt ++ "--" ++ kv.1) else none

/-- Modelled from the spec: BEM block form — `bemBlock base mods` yields `base`
followed by one `base--key` class per truthy modifier entry, in entry order. -/
def bemBlock (base : String) (mods : List (String × Bool)) : List String :=
  base :: mods.filterMap fun kv => if kv.2 then some (base ++ "--" ++ kv.1) else none

/-- Modelled from the spec: the `classnames` (`cn`) helper joins the given
class strings, skipping falsy entries.  We keep the classes as a token list;
the rendered `className` string is their space-joined form. -/
def cn (parts : List (Option String)) : List String :=
  parts.filterMap fun p => match p with
    | none => none
    | some s => if s = "" then none else some s

/-! ## GridCell (src/unnamed/part_000) -/

/-- The `GridCSSProperties` interface of GridCell: all fields optional. -/
structure GridCSSProperties where
  rowSpan : Option Nat := none
  rowStart : Option SN := none
  rowEnd : Option SN := none
  colStart : Option SN := none
  colEnd : Option SN := none
deriving DecidableEq, Repr

/-- The `AppSize` context consumed through `useAppSizeContext`. -/
structure AppSize where
  isPhone : Bool
  isTablet : Bool
  isDesktop : Bool
  isLargeDesktop : Bool
deriving DecidableEq, Repr

/-- JS `b && o` where `o` is an optional object: yields `o` when `b` is true
(so still possibly `undefined`), otherwise falsy (`none`). -/
def jsAnd (b : Bool) (o : Option GridCSSProperties) : Option GridCSSProperties :=
  if b then o else none

/-- JS `x || y` on optional objects: keeps `x` when truthy, else `y`. -/
def jsOr (x y : Option GridCSSProperties) : Option GridCSSProperties :=
  match x with
  | some v => some v
  | none => y

/-- The `media` expression of GridCell:
`(isPhone && phone) || (isTablet && tablet) || (isDesktop && desktop) || (isLargeDesktop && largeDesktop)`. -/
def gridCellMedia (a : AppSize) (phone tablet desktop largeDesktop : Option GridCSSProperties) :
    Option GridCSSProperties :=
  jsOr (jsAnd a.isPhone phone)
    (jsOr (jsAnd a.isTablet tablet)
      (jsOr (jsAnd a.isDesktop desktop)
        (jsAnd a.isLargeDesktop largeDesktop)))

/-- The destructuring assignment applied when `media` is truthy: each field of
the chosen override falls back to the corresponding base prop when `undefined`. -/
def applyMedia (m base : GridCSSProperties) : GridCSSProperties where
  rowSpan := m.rowSpan.orElse fun _ => base.rowSpan
  rowStart := m.rowStart.orElse fun _ => base.rowStart
  rowEnd := m.rowEnd.orElse fun _ => base.rowEnd
  colStart := m.colStart.orElse fun _ => base.colStart
  colEnd := m.colEnd.orElse fun _ => base.colEnd

/-- GridCell's resolution of the five grid CSS fields from the base props and
the responsive overrides, as transcribed from the component body
(`let colStart = propColStart; ...; if (media) { ({ rowSpan = propRowSpan, ... } = media) }`).
Note the destructuring only rebinds `rowSpan/rowStart/rowEnd/colStart/colEnd`;
`colSpan` is not part of `GridCSSProperties` resolution here. -/
def gridCellResolve (a : AppSize) (base : GridCSSProperties)
    (phone tablet desktop largeDesktop : Option GridCSSProperties) : GridCSSProperties :=
  match gridCellMedia a phone tablet desktop largeDesktop with
  | none => base
  | some m => applyMedia m base

/-- The `cellStyle` object of GridCell (before the user `style` spread). -/
structure CellStyle where
  gridColumnStart : Option SN
  gridColumnEnd : Option SN
  gridRowStart : Option SN
  gridRowEnd : Option SN
deriving DecidableEq, Repr

/-- The `cellStyle` construction: `gridRowEnd` is `span ${rowSpan}` when `rowSpan`
is truthy (a nonzero number), else `rowEnd`. -/
def gridCellStyle (r : GridCSSProperties) : CellStyle where
  gridColumnStart := r.colStart
  gridColumnEnd := r.colEnd
  gridRowStart := r.rowStart
  gridRowEnd :=
    if optNatTruthy r.rowSpan then some (SN.str ("span " ++ toString (r.rowSpan.getD 0)))
    else r.rowEnd

/-- The `cellClassName` computation of GridCell:
`cn(block("cell", { [String(colSpan)]: colSpan }), className)`.
In JS the computed key is `String(colSpan)` (so `"undefined"` when absent) and
the modifier is kept only when `colSpan` is truthy (a nonzero number). -/
def gridCellClassName (colSpan : Option Nat) (className : Option String) : List String :=
  bemElement "rmd-grid" "cell"
      [(toString (colSpan.getD 0), optNatTruthy colSpan)] ++ cn [className]

/-- The rendered (non-cloning) GridCell output, restricted to the observable
parts the spec talks about: element type, style and class list. -/
structure RenderedCell where
  tag : String
  style : CellStyle
  classes : List String
deriving DecidableEq, Repr

/-- GridCell's pure render mapping from props and the `AppSize` context value
to the rendered `div` (the `clone` branch is taken only when `clone` is set
and the child is a single element; the class/style computation is shared). -/
def gridCellRender (a : AppSize) (colSpan : Option Nat) (className : Option String)
    (base : GridCSSProperties) (phone tablet desktop largeDesktop : Option GridCSSProperties) :
    RenderedCell where
  tag := "div"
  style := gridCellStyle (gridCellResolve a base phone tablet desktop largeDesktop)
  classes := gridCellClassName colSpan className

/-! ## ConditionalPortal (packages/portal/src/ConditionalPortal.tsx) -/

/-- The `PortalInto` type of the portal package: `string | (() => Element) | Element`.
Element and function values are opaque; only a string can be falsy. -/
inductive PortalInto where
  | query (s : String)
  | fn (tag : Nat)
  | element (tag : Nat)
deriving DecidableEq, Repr

/-- JS truthiness of an optional `PortalInto`: `undefined` and `""` are falsy. -/
def portalIntoTruthy (p : Option PortalInto) : Bool :=
  match p with
  | none => false
  | some (PortalInto.query s) => s ≠ ""
  | some (PortalInto.fn _) => true
  | some (PortalInto.element _) => true

/-- A node of the rendered tree, as far as these claims observe it: `null`,
an opaque element, or a `Portal` wrapper carrying its `into`/`intoId`/`visible`
props and its child. -/
inductive RNode where
  | null
  | element (tag : Nat)
  | portal (into : Option PortalInto) (intoId : Option String) (visible : Bool) (child : RNode)
deriving DecidableEq, Repr

/-- The props of `ConditionalPortal` (`children` is `ReactElement | null`). -/
structure ConditionalPortalProps where
  portal : Option Bool := none
  portalInto : Option PortalInto := none
  portalIntoId : Option String := none
  visible : Bool
  children : RNode
deriving DecidableEq, Repr

/-- The body of `ConditionalPortal`: when `!portal && !portalInto && !portalIntoId`
the children are returned as-is, otherwise they are wrapped in a
`Portal into={portalInto} intoId={portalIntoId} visible={visible}`. -/
def conditionalPortal (p : ConditionalPortalProps) : RNode :=
  if ¬ optBoolTruthy p.portal ∧ ¬ portalIntoTruthy p.portalInto ∧
      ¬ optStrTruthy p.portalIntoId then
    p.children
  else
    RNode.portal p.portalInto p.portalIntoId p.visible p.children

/-! ## FloatingLabel (packages/form/src/label/FloatingLabel.tsx) -/

/-- The props of `FloatingLabel` relevant to its class computation.  `active`
and `covering` have `defaultProps` entries (`false`); `dense`, `outline`,
`underline`, `leftChildren`, `rightChildren` are plain optional booleans. -/
structure FloatingLabelProps where
  className : Option String := none
  underline : Option Bool := none
  outline : Option Bool := none
  valued : Bool
  dense : Option Bool := none
  covering : Option Bool := none
  leftChildren : Option Bool := none
  rightChildren : Option Bool := none
  active : Option Bool := none
  error : Option Bool := none
  disabled : Option Bool := none
deriving DecidableEq, Repr

/-- The class token list of the rendered `FloatingLabel`:
`cn(block({ dense, active: isActive, inactive: valued && !active, covering,
"outline-active": isActive && outline,
"underline-left-offset": isActive && underline && leftChildren }), className)`
with `isActive = active || valued` and `active` defaulted to `false`. -/
def floatingLabelClasses (p : FloatingLabelProps) : List String :=
  let active := optBoolTruthy p.active
  let isActive := active || p.valued
  bemBlock "rmd-floating-label"
      [ ("dense", optBoolTruthy p.dense),
        ("active", isActive),
        ("inactive", p.valued && !active),
        ("covering", optBoolTruthy p.covering),
        ("outline-active", isActive && optBoolTruthy p.outline),
        ("underline-left-offset",
          isActive && optBoolTruthy p.underline && optBoolTruthy p.leftChildren) ]
    ++ cn [p.className]

/-- The rendered `FloatingLabel` output observed by the claims: the underlying
`Label` element with its class list and the forwarded state flags. -/
structure RenderedLabel where
  classes : List String
  error : Bool
  active : Bool
  disabled : Bool
deriving DecidableEq, Repr

/-- The pure render mapping of `FloatingLabel` from props to the rendered `Label`
(after `defaultProps` resolution of `error`/`active`/`disabled`). -/
def floatingLabelRender (p : FloatingLabelProps) : RenderedLabel where
  classes := floatingLabelClasses p
  error := optBoolTruthy p.error
  active := optBoolTruthy p.active
  disabled := optBoolTruthy p.disabled

/-! ## Select (packages/form/src/select/Select.tsx) -/

/-- The `value` prop of `Select`/`Listbox`: a string or a number
(`valued = typeof value === "number" || !!value`). -/
inductive SelectValue where
  | str (s : String)
  | num (n : Int)
deriving DecidableEq, Repr

/-- Identity of a function-valued prop.  The default option helpers
(`getOptionId`, `getOptionLabel`, `DEFAULT_GET_ITEM_VALUE`, `getDisplayLabel`)
live in `./utils` / `@react-md/utils`, outside `src/`; the claims only concern
which function is wired where, so each is an opaque named token and
application code may pass any other function (`custom`). -/
inductive FnRef where
  | defaultGetOptionId
  | defaultGetOptionLabel
  | defaultGetItemValue
  | defaultGetDisplayLabel
  | custom (tag : Nat)
deriving DecidableEq, Repr

/-- The `theme` prop values of the text-field container. -/
inductive FieldTheme where
  | themeNone
  | underline
  | filled
  | outline
deriving DecidableEq, Repr

/-- The `underlineDirection` prop values. -/
inductive UnderlineDirection where
  | left
  | right
deriving DecidableEq, Repr

/-- The provided props of `Select` that participate in `defaultProps`
resolution, plus the controlled `value`/`onChange` pair; optional props are
`Option` (`none` = omitted). -/
structure SelectProps where
  id : String
  value : SelectValue
  onChange : FnRef
  options : List SelectValue
  portal : Option Bool := none
  theme : Option FieldTheme := none
  dense : Option Bool := none
  inline : Option Bool := none
  error : Option Bool := none
  disabled : Option Bool := none
  isLeftAddon : Option Bool := none
  isRightAddon : Option Bool := none
  underlineDirection : Option UnderlineDirection := none
  labelKey : Option String := none
  valueKey : Option String := none
  getOptionId : Option FnRef := none
  getOptionLabel : Option FnRef := none
  getOptionValue : Option FnRef := none
  getDisplayLabel : Option FnRef := none
  disableLeftAddon : Option Bool := none
  disableMovementChange : Option Bool := none
deriving DecidableEq, Repr

/-- The props of `Select` after `defaultProps` resolution. -/
structure ResolvedSelectProps where
  id : String
  value : SelectValue
  onChange : FnRef
  options : List SelectValue
  portal : Bool
  theme : FieldTheme
  dense : Bool
  inline : Bool
  error : Bool
  disabled : Bool
  isLeftAddon : Bool
  isRightAddon : Bool
  underlineDirection : UnderlineDirection
  labelKey : String
  valueKey : String
  getOptionId : FnRef
  getOptionLabel : FnRef
  getOptionValue : FnRef
  getDisplayLabel : FnRef
  disableLeftAddon : Bool
  disableMovementChange : Bool
deriving DecidableEq, Repr

/-- The `defaultProps` object of `Select`, applied the way the rendering
runtime applies it: an omitted (`undefined`) prop takes the declared default,
a provided prop is kept.  The function is total: defaulting never raises. -/
def applySelectDefaults (p : SelectProps) : ResolvedSelectProps where
  id := p.id
  value := p.value
  onChange := p.onChange
  options := p.options
  portal := p.portal.getD true
  theme := p.theme.getD FieldTheme.outline
  dense := p.dense.getD false
  inline := p.inline.getD false
  error := p.error.getD false
  disabled := p.disabled.getD false
  isLeftAddon := p.isLeftAddon.getD true
  isRightAddon := p.isRightAddon.getD true
  underlineDirection := p.underlineDirection.getD UnderlineDirection.left
  labelKey := p.labelKey.getD "label"
  valueKey := p.valueKey.getD "value"
  getOptionId := p.getOptionId.getD FnRef.defaultGetOptionId
  getOptionLabel := p.getOptionLabel.getD FnRef.defaultGetOptionLabel
  getOptionValue := p.getOptionValue.getD FnRef.defaultGetItemValue
  getDisplayLabel := p.getDisplayLabel.getD FnRef.defaultGetDisplayLabel
  disableLeftAddon := p.disableLeftAddon.getD false
  disableMovementChange := p.disableMovementChange.getD false

/-- The ephemeral state local to a `Select` instance: the `visible` toggle
from `useToggle(false)` and the `focused` flag from `useFocusState`.  There is
no state slot for the selection value. -/
structure SelectState where
  visible : Bool
  focused : Bool
deriving DecidableEq, Repr

/-- The initial state of a freshly mounted `Select`. -/
def initialSelectState : SelectState := { visible := false, focused := false }

/-- Side effects a `Select` event handler can request besides its own state
update: moving DOM focus back to the select element, or invoking the
`onChange` callback with a new value. -/
inductive SelectEffect where
  | focusSelect
  | invokeOnChange (v : SelectValue)
deriving DecidableEq, Repr

/-- The `show` action of `useToggle`: modelled from the spec ("a synchronous state flag
flip"); `useToggle` lives in `@react-md/utils`, outside `src/`.  Sets the
flag to `true`. -/
def showListbox (s : SelectState) : SelectState := { s with visible := true }

/-- The `hide` action of `useToggle`: sets the flag to `false`. -/
def hideListbox (s : SelectState) : SelectState := { s with visible := false }

/-- The `handleKeyboardClose` callback (Select.tsx lines 287-292): `hide()` then, when the
select element ref is populated, `selectRef.current.focus()`. -/
def handleKeyboardClose (s : SelectState) (refPresent : Bool) :
    SelectState × List SelectEffect :=
  (hideListbox s, if refPresent then [SelectEffect.focusSelect] else [])

/-- The `useCloseOnOutsideClick` wiring (Select.tsx lines 246-250), modelled
from the spec for the hook itself (it lives in `@react-md/utils`, outside
`src/`): when `enabled` (= `visible`) and a click lands outside the element,
`onOutsideClick` (= `hide`) runs; otherwise nothing happens. -/
def handleOutsideClick (s : SelectState) (clickOutside : Bool) :
    SelectState × List SelectEffect :=
  if s.visible && clickOutside then (hideListbox s, []) else (s, [])

/-- The observable parts of a `Select` render: what the `TextFieldContainer`,
`FloatingLabel`, display-value `<span>` and `Listbox` receive. -/
structure RenderedSelect where
  containerActive : Bool
  labelValued : Bool
  labelActive : Bool
  labelFloating : Bool
  displayDeps : SelectValue × String × String × Bool
  listboxValue : SelectValue
  listboxOnChange : FnRef
  listboxVisible : Bool
  listboxDisableMovementChange : Bool
deriving DecidableEq, Repr

/-- The render mapping of `Select` from resolved props and local state to the
rendered output.  `valued = typeof value === "number" || !!value`; the
`Listbox` receives `value={value}` and `onChange={onChange}` straight from the
props (lines 343-367); `displayDeps` records the `useMemo` inputs of the
display value (`value`, `valueKey`, `labelKey`, `!disableLeftAddon`) whose
helper functions stay opaque. -/
def selectRender (p : ResolvedSelectProps) (s : SelectState) : RenderedSelect :=
  let valued :=
    match p.value with
    | SelectValue.num _ => true
    | SelectValue.str v => v ≠ ""
  { containerActive := s.focused || s.visible
    labelValued := valued
    labelActive := valued && (s.focused || s.visible)
    labelFloating := s.focused || valued || s.visible
    displayDeps := (p.value, p.valueKey, p.labelKey, !p.disableLeftAddon)
    listboxValue := p.value
    listboxOnChange := p.onChange
    listboxVisible := s.visible
    listboxDisableMovementChange := p.disableMovementChange }

/-! ## The propTypes guard shared by Select, FloatingLabel, ConditionalPortal
and GridCell

Each of the four components ends its module with

```
if (process.env.NODE_ENV !== "production") {
  let PropTypes;            // (or `= null`)
  try { PropTypes = require("prop-types"); } catch (e) {}
  if (PropTypes) { Component.propTypes = { ... }; }
}
```

We model the outcome of `require("prop-types")` as `Except Unit PT` (`error`
= the module is absent and `require` throws) and module evaluation as an
`Except`-valued computation: an uncaught error would surface as `.error`. -/

/-- An opaque, always-truthy `prop-types` module value. -/
inductive PT where
  | propTypesModule
deriving DecidableEq, Repr

/-- Evaluation of one component's propTypes guard: returns the final
`Component.propTypes` assignment (`none` = left unassigned) or an uncaught
error.  The `try { ... } catch (e) {}` swallows a `require` failure, leaving
the local binding unset, so the `if (PropTypes)` test skips the assignment. -/
def propTypesGuardEval (nodeEnv : String) (requireResult : Except Unit PT) :
    Except Unit (Option PT) :=
  if nodeEnv ≠ "production" then
    let propTypesLocal : Option PT :=
      match requireResult with
      | Except.ok m => some m
      | Except.error _ => none
    match propTypesLocal with
    | some m => Except.ok (some m)
    | none => Except.ok none
  else
    Except.ok none

/-- The guard of `Select` (Select.tsx lines 395-441). -/
def selectPropTypesEval : String → Except Unit PT → Except Unit (Option PT) :=
  propTypesGuardEval

/-- The guard of `FloatingLabel` (FloatingLabel.tsx). -/
def floatingLabelPropTypesEval : String → Except Unit PT → Except Unit (Option PT) :=
  propTypesGuardEval

/-- The guard of `ConditionalPortal` (ConditionalPortal.tsx lines 59-78). -/
def conditionalPortalPropTypesEval : String → Except Unit PT → Except Unit (Option PT) :=
  propTypesGuardEval

/-- The guard of `GridCell` (src/unnamed/part_000 lines 166-202). -/
def gridCellPropTypesEval : String → Except Unit PT → Except Unit (Option PT) :=
  propTypesGuardEval

/-! ## DemoPage (packages/documentation/src/components/Demos/DemoPage.tsx) -/

/-- The whitespace class matched by the regex `/\s+/` on the font names. -/
def isWs (c : Char) : Bool :=
  c = ' ' || c = '\t' || c = '\n' || c = '\r' || c = '\x0b' || c = '\x0c'

/-- The semantics of `font.replace(/\s+/g, "+")` on a character list: every maximal run of
whitespace characters becomes a single `'+'`. -/
def replaceWsRuns : List Char → List Char
  | [] => []
  | c :: rest =>
    if isWs c then
      '+' :: replaceWsRuns (rest.dropWhile isWs)
    else
      c :: replaceWsRuns rest
  termination_by l => l.length
  decreasing_by
    · simp only [List.length_cons]
      exact Nat.lt_succ_of_le ((List.dropWhile_suffix isWs).sublist.length_le)
    · simp

/-- The fixed Font Awesome stylesheet URL used for the name `"Font Awesome"`. -/
def fontAwesomeHref : String :=
  "https://cdnjs.cloudflare.com/ajax/libs/font-awesome/4.6.3/css/font-awesome.min.css"

/-- The `href` computed for one font name in `DemoPage`'s `fonts.map`. -/
def fontHref (font : String) : String :=
  if font = "Font Awesome" then
    fontAwesomeHref
  else
    "https://fonts.googleapis.com/css2?family="
      ++ String.mk (replaceWsRuns font.data) ++ "&display=swap"

/-- A rendered `<link rel="stylesheet">` element with its React `key`. -/
structure LinkEl where
  key : String
  rel : String
  href : String
deriving DecidableEq, Repr

/-- The stylesheet link list produced by `fonts.map` in `DemoPage`. -/
def demoPageFontLinks (fonts : List String) : List LinkEl :=
  fonts.map fun font => { key := font, rel := "stylesheet", href := fontHref font }

/-! ## Claim-shaped auxiliary definitions -/

/-- A concrete resolved `Select` prop record used by counterexamples and
witnesses. -/
def sampleSelectProps (v : SelectValue) : ResolvedSelectProps where
  id := "custom-select-1"
  value := v
  onChange := FnRef.custom 0
  options := [SelectValue.str "Option 1", SelectValue.str "Option 2"]
  portal := true
  theme := FieldTheme.outline
  dense := false
  inline := false
  error := false
  disabled := false
  isLeftAddon := true
  isRightAddon := true
  underlineDirection := UnderlineDirection.left
  labelKey := "label"
  valueKey := "value"
  getOptionId := FnRef.defaultGetOptionId
  getOptionLabel := FnRef.defaultGetOptionLabel
  getOptionValue := FnRef.defaultGetItemValue
  getDisplayLabel := FnRef.defaultGetDisplayLabel
  disableLeftAddon := false
  disableMovementChange := false

/-- The claim's override-selection rule for C8, written the way the claim
words it: the first pair in the fixed order phone/tablet/desktop/largeDesktop
whose media flag is set and whose override object is provided. -/
def pickOverride (a : AppSize) (phone tablet desktop largeDesktop : Option GridCSSProperties) :
    Option GridCSSProperties :=
  if a.isPhone ∧ phone.isSome then phone
  else if a.isTablet ∧ tablet.isSome then tablet
  else if a.isDesktop ∧ desktop.isSome then desktop
  else if a.isLargeDesktop ∧ largeDesktop.isSome then largeDesktop
  else none

/-- The claim's per-field fallback for C8: an override field that is provided
wins; an `undefined` field falls back to the corresponding base prop. -/
def overrideField {α : Type} (o b : Option α) : Option α :=
  if o.isSome then o else b

/-- The claim's application of a chosen override for C8, field by field. -/
def specApplyOverride (m base : GridCSSProperties) : GridCSSProperties where
  rowSpan := overrideField m.rowSpan base.rowSpan
  rowStart := overrideField m.rowStart base.rowStart
  rowEnd := overrideField m.rowEnd base.rowEnd
  colStart := overrideField m.colStart base.colStart
  colEnd := overrideField m.colEnd base.colEnd

/-! ## Theorems -/

/-- Helper: a span modifier token is never the bare element class. -/
theorem spanToken_ne_cellClass (m : Nat) :
    ("rmd-grid__cell--" ++ toString m) ≠ "rmd-grid__cell" := by
  intro h
  have h2 := congrArg String.length h
  rw [String.length_append] at h2
  have e1 : ("rmd-grid__cell--" : String).length = 16 := by decide
  have e2 : ("rmd-grid__cell" : String).length = 14 := by decide
  rw [e1, e2] at h2
  omega

/-- C1: for any provided positive `colSpan` `n` (in particular `n = 3`), the
rendered GridCell class list contains the bem token `rmd-grid__cell--n`; when
`colSpan` is omitted or `0` (and no extra `className` is supplied), no span
token `rmd-grid__cell--m` is present for any `m`. -/
theorem gridCell_colSpan_class (n : Nat) (h : 0 < n) (cls : Option String) :
    ("rmd-grid__cell--" ++ toString n) ∈ gridCellClassName (some n) cls ∧
    (∀ m : Nat, ("rmd-grid__cell--" ++ toString m) ∉ gridCellClassName none none) ∧
    (∀ m : Nat, ("rmd-grid__cell--" ++ toString m) ∉ gridCellClassName (some 0) none) := by
  have hn : n ≠ 0 := Nat.pos_iff_ne_zero.mp h
  refine ⟨?_, ?_, ?_⟩
  · simp [gridCellClassName, bemElement, optNatTruthy, hn, cn]
  · intro m
    simpa [gridCellClassName, bemElement, optNatTruthy, cn] using spanToken_ne_cellClass m
  · intro m
    simpa [gridCellClassName, bemElement, optNatTruthy, cn] using spanToken_ne_cellClass m

/-- Witness for C1 at `colSpan = 3`. -/
theorem gridCell_colSpan_class_witness :
    ("rmd-grid__cell--" ++ toString 3) ∈ gridCellClassName (some 3) none :=
  (gridCell_colSpan_class 3 (by decide) none).1

/-- C2: when `portal`, `portalInto` and `portalIntoId` are all absent/falsy,
`ConditionalPortal` returns its children unchanged (identity, including
`children = null`); when at least one is set, the children are rendered
through a `Portal` with the given `into`/`intoId`/`visible` values forwarded. -/
theorem conditionalPortal_identity_or_portal (p : ConditionalPortalProps) :
    (¬ optBoolTruthy p.portal ∧ ¬ portalIntoTruthy p.portalInto ∧
        ¬ optStrTruthy p.portalIntoId →
      conditionalPortal p = p.children) ∧
    (optBoolTruthy p.portal ∨ portalIntoTruthy p.portalInto ∨
        optStrTruthy p.portalIntoId →
      conditionalPortal p = RNode.portal p.portalInto p.portalIntoId p.visible p.children) := by
  constructor
  · intro h
    simp [conditionalPortal, h.1, h.2.1, h.2.2]
  · intro h
    rw [conditionalPortal, if_neg]
    tauto

/-- Witness for C2: with all three portal props omitted and `children = null`,
the output is exactly `null`; with `portal = some true`, the output is the
`Portal` wrapper. -/
theorem conditionalPortal_identity_or_portal_witness :
    conditionalPortal { visible := true, children := RNode.null } = RNode.null ∧
    conditionalPortal { portal := some true, visible := true, children := RNode.element 7 } =
      RNode.portal none none true (RNode.element 7) :=
  ⟨(conditionalPortal_identity_or_portal
      { visible := true, children := RNode.null }).1 (by decide),
   (conditionalPortal_identity_or_portal
      { portal := some true, visible := true, children := RNode.element 7 }).2 (by decide)⟩

/-- C3 counterexample: the selection value is not internal component state.
With identical internal state (the freshly mounted state), two renders that
differ only in the `value` prop forward different values to the `Listbox`,
each equal to its prop — so the selection is externally controlled, not owned
by the instance. -/
theorem select_value_not_internal_state :
    (selectRender (sampleSelectProps (SelectValue.str "Option 1"))
        initialSelectState).listboxValue ≠
      (selectRender (sampleSelectProps (SelectValue.str "Option 2"))
        initialSelectState).listboxValue ∧
    (selectRender (sampleSelectProps (SelectValue.str "Option 1"))
        initialSelectState).listboxValue = SelectValue.str "Option 1" := by
  constructor
  · decide
  · rfl

/-- C3 (amended): `Select` receives the selection value as an externally
controlled prop: for every resolved prop record and every internal state, the
`value` and `onChange` pair is forwarded to the `Listbox` exactly as given,
and the instance's own state holds only the `visible` and `focused` flags
(closing/opening transitions never touch the forwarded value). -/
theorem select_value_controlled (p : ResolvedSelectProps) (s : SelectState) :
    (selectRender p s).listboxValue = p.value ∧
    (selectRender p s).listboxOnChange = p.onChange ∧
    (selectRender p (showListbox s)).listboxValue = p.value ∧
    (selectRender p (hideListbox s)).listboxValue = p.value :=
  ⟨rfl, rfl, rfl, rfl⟩

/-- C4: prop validation is a development-only shape check guarded against the
optional dependency being absent.  For each of the four components (Select,
FloatingLabel, ConditionalPortal, GridCell): under `NODE_ENV = "production"`
no `propTypes` are assigned; when `require("prop-types")` throws, the failure
is caught and module evaluation still completes normally (`Except.ok`) with
`propTypes` left unassigned; and module evaluation never surfaces an uncaught
error. -/
theorem propTypes_guard_safe (env : String) (req : Except Unit PT) :
    (env = "production" →
      selectPropTypesEval env req = Except.ok none ∧
      floatingLabelPropTypesEval env req = Except.ok none ∧
      conditionalPortalPropTypesEval env req = Except.ok none ∧
      gridCellPropTypesEval env req = Except.ok none) ∧
    (req = Except.error () →
      selectPropTypesEval env req = Except.ok none ∧
      floatingLabelPropTypesEval env req = Except.ok none ∧
      conditionalPortalPropTypesEval env req = Except.ok none ∧
      gridCellPropTypesEval env req = Except.ok none) ∧
    (∃ r, selectPropTypesEval env req = Except.ok r) ∧
    (∃ r, floatingLabelPropTypesEval env req = Except.ok r) ∧
    (∃ r, conditionalPortalPropTypesEval env req = Except.ok r) ∧
    (∃ r, gridCellPropTypesEval env req = Except.ok r) := by
  unfold selectPropTypesEval floatingLabelPropTypesEval conditionalPortalPropTypesEval
    gridCellPropTypesEval propTypesGuardEval
  refine ⟨fun h => ?_, fun h => ?_, ?_, ?_, ?_, ?_⟩ <;>
    simp_all <;>
    (try cases req) <;>
    split <;> simp_all

/-- Witness for C4: in production with the module present nothing is
assigned, and in development a throwing `require` is swallowed. -/
theorem propTypes_guard_safe_witness :
    selectPropTypesEval "production" (Except.ok PT.propTypesModule) = Except.ok none ∧
    gridCellPropTypesEval "development" (Except.error ()) = Except.ok none :=
  ⟨((propTypes_guard_safe "production" (Except.ok PT.propTypesModule)).1 rfl).1,
   ((propTypes_guard_safe "development" (Except.error ())).2.1 rfl).2.2.2⟩

/-- C5: missing input is defaulted rather than rejected.  For every `Select`
prop record, each optional prop listed in `DefaultProps` that is omitted
(`none`) resolves to its declared default — `portal = true`,
`theme = "outline"`, `labelKey = "label"`, `valueKey = "value"`,
`disabled = false`, `error = false`, `dense = false`,
`disableLeftAddon = false`, `disableMovementChange = false`, and the default
`getOptionId`/`getOptionLabel`/`getOptionValue`/`getDisplayLabel` functions —
and defaulting is a total operation that raises no error. -/
theorem select_defaults_applied (p : SelectProps) :
    (p.portal = none → (applySelectDefaults p).portal = true) ∧
    (p.theme = none → (applySelectDefaults p).theme = FieldTheme.outline) ∧
    (p.labelKey = none → (applySelectDefaults p).labelKey = "label") ∧
    (p.valueKey = none → (applySelectDefaults p).valueKey = "value") ∧
    (p.disabled = none → (applySelectDefaults p).disabled = false) ∧
    (p.error = none → (applySelectDefaults p).error = false) ∧
    (p.dense = none → (applySelectDefaults p).dense = false) ∧
    (p.disableLeftAddon = none → (applySelectDefaults p).disableLeftAddon = false) ∧
    (p.disableMovementChange = none →
      (applySelectDefaults p).disableMovementChange = false) ∧
    (p.getOptionId = none →
      (applySelectDefaults p).getOptionId = FnRef.defaultGetOptionId) ∧
    (p.getOptionLabel = none →
      (applySelectDefaults p).getOptionLabel = FnRef.defaultGetOptionLabel) ∧
    (p.getOptionValue = none →
      (applySelectDefaults p).getOptionValue = FnRef.defaultGetItemValue) ∧
    (p.getDisplayLabel = none →
      (applySelectDefaults p).getDisplayLabel = FnRef.defaultGetDisplayLabel) := by
  refine ⟨?_, ?_, ?_, ?_, ?_, ?_, ?_, ?_, ?_, ?_, ?_, ?_, ?_⟩ <;>
    · intro h
      simp [applySelectDefaults, h]

/-- Witness for C5 at a prop record providing only the required props. -/
theorem select_defaults_applied_witness :
    (applySelectDefaults
        { id := "s", value := SelectValue.str "", onChange := FnRef.custom 0,
          options := [] }).portal = true :=
  (select_defaults_applied
    { id := "s", value := SelectValue.str "", onChange := FnRef.custom 0,
      options := [] }).1 rfl

/-- C6: closing the listbox is a synchronous flag flip.  From any state with
the listbox visible: an outside click sets only `visible := false` (leaving
`focused` and everything else unchanged) with no further effect; a keyboard
close request sets `visible := false` and additionally moves DOM focus back
to the select element; neither close path emits an `onChange` invocation, and
the value forwarded to the `Listbox` after closing is still exactly the
`value` prop. -/
theorem select_close_is_flag_flip (p : ResolvedSelectProps) (s : SelectState)
    (h : s.visible = true) :
    (handleOutsideClick s true).1 = { s with visible := false } ∧
    (handleOutsideClick s true).2 = [] ∧
    (handleKeyboardClose s true).1 = { s with visible := false } ∧
    (handleKeyboardClose s true).2 = [SelectEffect.focusSelect] ∧
    (∀ v, SelectEffect.invokeOnChange v ∉ (handleKeyboardClose s true).2) ∧
    (∀ v, SelectEffect.invokeOnChange v ∉ (handleOutsideClick s true).2) ∧
    (selectRender p (handleOutsideClick s true).1).listboxValue = p.value ∧
    (selectRender p (handleKeyboardClose s true).1).listboxValue = p.value := by
  refine ⟨?_, ?_, rfl, rfl, ?_, ?_, rfl, rfl⟩ <;>
    simp [handleOutsideClick, handleKeyboardClose, hideListbox, h, selectRender]

/-- Witness for C6 at a visible, focused state. -/
theorem select_close_is_flag_flip_witness :
    (handleOutsideClick { visible := true, focused := true } true).1 =
      { visible := false, focused := true } :=
  (select_close_is_flag_flip (sampleSelectProps (SelectValue.str "Option 1"))
    { visible := true, focused := true } rfl).1

/-- C7: rendering is deterministic in props/state/context.  The render
mappings of `FloatingLabel` and `GridCell` are pure functions of their
inputs: two renders with equal props and equal `AppSize` context values
produce equal rendered outputs (equal element type, style and class list). -/
theorem render_deterministic (p q : FloatingLabelProps)
    (a a' : AppSize) (colSpan colSpan' : Option Nat) (cls cls' : Option String)
    (base base' : GridCSSProperties)
    (ph ph' tb tb' dk dk' ld ld' : Option GridCSSProperties)
    (h1 : p = q) (h2 : a = a') (h3 : colSpan = colSpan') (h4 : cls = cls')
    (h5 : base = base') (h6 : ph = ph') (h7 : tb = tb') (h8 : dk = dk')
    (h9 : ld = ld') :
    floatingLabelRender p = floatingLabelRender q ∧
    gridCellRender a colSpan cls base ph tb dk ld =
      gridCellRender a' colSpan' cls' base' ph' tb' dk' ld' := by
  subst h1 h2 h3 h4 h5 h6 h7 h8 h9
  exact ⟨rfl, rfl⟩

/-- Witness for C7 at concrete equal inputs. -/
theorem render_deterministic_witness :
    floatingLabelRender { valued := true } = floatingLabelRender { valued := true } ∧
    gridCellRender ⟨true, false, false, false⟩ (some 2) none {} none none none none =
      gridCellRender ⟨true, false, false, false⟩ (some 2) none {} none none none none :=
  render_deterministic { valued := true } { valued := true }
    ⟨true, false, false, false⟩ ⟨true, false, false, false⟩ (some 2) (some 2)
    none none {} {} none none none none none none none none
    rfl rfl rfl rfl rfl rfl rfl rfl rfl

/-- Helper for C8: the source's destructuring fallback agrees with the
claim-shaped per-field fallback. -/
theorem applyMedia_eq_specApplyOverride (m base : GridCSSProperties) :
    applyMedia m base = specApplyOverride m base := by
  rcases m with ⟨rs, rst, re, cs, ce⟩
  cases rs <;> cases rst <;> cases re <;> cases cs <;> cases ce <;> rfl

/-- C8: GridCell applies at most one responsive override, chosen as the first
truthy pair in the fixed order phone, tablet, desktop, largeDesktop; within
the chosen override each `undefined` field falls back to the corresponding
base prop, and with no applicable override the base props are used
unchanged. -/
theorem gridCell_media_selection (a : AppSize) (base : GridCSSProperties)
    (ph tb dk ld : Option GridCSSProperties) :
    gridCellResolve a base ph tb dk ld =
      match pickOverride a ph tb dk ld with
      | none => base
      | some m => specApplyOverride m base := by
  rcases a with ⟨hp, ht, hd, hl⟩
  cases hp <;> cases ht <;> cases hd <;> cases hl <;>
    cases ph <;> cases tb <;> cases dk <;> cases ld <;>
      simp [gridCellResolve, gridCellMedia, jsAnd, jsOr, pickOverride,
        applyMedia_eq_specApplyOverride]

/-- C9 counterexample: the `active` and `inactive` modifiers are not mutually
exclusive.  A label with `valued = true` and `active` omitted (defaulted to
`false`) carries both `rmd-floating-label--active` (since `active || valued`)
and `rmd-floating-label--inactive` (since `valued && !active`). -/
theorem floatingLabel_both_modifiers :
    "rmd-floating-label--active" ∈ floatingLabelClasses { valued := true } ∧
    "rmd-floating-label--inactive" ∈ floatingLabelClasses { valued := true } := by
  decide

/-- C9 (amended): with no extra `className`, the active modifier is present
iff `active || valued` and the inactive modifier iff `valued && !active`;
the two are not mutually exclusive — they co-occur exactly when
`valued && !active` — and a label with `valued = false` and `active = false`
carries neither. -/
theorem floatingLabel_modifier_conditions (p : FloatingLabelProps)
    (hc : p.className = none) :
    ("rmd-floating-label--active" ∈ floatingLabelClasses p ↔
      (optBoolTruthy p.active || p.valued) = true) ∧
    ("rmd-floating-label--inactive" ∈ floatingLabelClasses p ↔
      (p.valued && !optBoolTruthy p.active) = true) ∧
    (("rmd-floating-label--active" ∈ floatingLabelClasses p ∧
        "rmd-floating-label--inactive" ∈ floatingLabelClasses p) ↔
      (p.valued && !optBoolTruthy p.active) = true) ∧
    (p.valued = false → optBoolTruthy p.active = false →
      "rmd-floating-label--active" ∉ floatingLabelClasses p ∧
      "rmd-floating-label--inactive" ∉ floatingLabelClasses p) := by
  simp only [floatingLabelClasses, hc]
  generalize optBoolTruthy p.active = A
  generalize optBoolTruthy p.dense = D
  generalize optBoolTruthy p.covering = C
  generalize optBoolTruthy p.outline = O
  generalize optBoolTruthy p.underline = U
  generalize optBoolTruthy p.leftChildren = L
  generalize p.valued = V
  cases A <;> cases D <;> cases C <;> cases O <;> cases U <;> cases L <;>
    cases V <;> decide

/-- Witness for C9's amended theorem at `valued = true`, `active` omitted. -/
theorem floatingLabel_modifier_conditions_witness :
    "rmd-floating-label--inactive" ∈ floatingLabelClasses { valued := true } :=
  (floatingLabel_modifier_conditions { valued := true } rfl).2.1.mpr (by decide)

/-- Helper for C10: output of the whitespace replacement never contains a
whitespace character. -/
theorem replaceWsRuns_no_ws (l : List Char) : ∀ c ∈ replaceWsRuns l, isWs c = false := by
  induction l using replaceWsRuns.induct with
  | case1 => simp [replaceWsRuns]
  | case2 c rest hws ih =>
    intro d hd
    rw [replaceWsRuns, if_pos hws] at hd
    rcases List.mem_cons.mp hd with h | h
    · subst h; decide
    · exact ih d h
  | case3 c rest hws ih =>
    intro d hd
    rw [replaceWsRuns, if_neg hws] at hd
    rcases List.mem_cons.mp hd with h | h
    · subst h; exact Bool.of_not_eq_true hws
    · exact ih d h

/-- Helper for C10: dropping whitespace from an all-whitespace prefix runs
past it. -/
theorem dropWhile_ws_append (w b : List Char) (hw : ∀ c ∈ w, isWs c = true) :
    (w ++ b).dropWhile isWs = b.dropWhile isWs := by
  induction w with
  | nil => rfl
  | cons c t ih =>
    have hc : isWs c = true := hw c (List.mem_cons_self c t)
    simp only [List.cons_append, List.dropWhile_cons, hc, if_true]
    exact ih fun d hd => hw d (List.mem_cons_of_mem c hd)

/-- Helper for C10: a list whose head is not whitespace is unchanged by
`dropWhile isWs`. -/
theorem dropWhile_of_head_not_ws (b : List Char)
    (hb : b.head?.all (fun c => !isWs c) = true) :
    b.dropWhile isWs = b := by
  cases b with
  | nil => rfl
  | cons c t =>
    simp only [List.head?_cons, Option.all_some, Bool.not_eq_true'] at hb
    simp [List.dropWhile_cons, hb]

/-- Helper for C10: a maximal whitespace run is replaced by a single `'+'`:
for any whitespace-free prefix `a`, nonempty all-whitespace run `w` and
suffix `b` not starting with whitespace,
`replaceWsRuns (a ++ w ++ b) = a ++ '+' :: replaceWsRuns b`. -/
theorem replaceWsRuns_collapse (a w b : List Char)
    (ha : ∀ c ∈ a, isWs c = false) (hw : ∀ c ∈ w, isWs c = true) (hw0 : w ≠ [])
    (hb : b.head?.all (fun c => !isWs c) = true) :
    replaceWsRuns (a ++ w ++ b) = a ++ '+' :: replaceWsRuns b := by
  induction a with
  | nil =>
    cases w with
    | nil => exact absurd rfl hw0
    | cons c t =>
      have hc : isWs c = true := hw c (List.mem_cons_self c t)
      simp only [List.nil_append, List.cons_append]
      rw [replaceWsRuns, if_pos hc]
      rw [dropWhile_ws_append t b fun d hd => hw d (List.mem_cons_of_mem c hd)]
      rw [dropWhile_of_head_not_ws b hb]
  | cons c t ih =>
    have hc : isWs c = false := ha c (List.mem_cons_self c t)
    simp only [List.cons_append]
    rw [replaceWsRuns, if_neg (by simp [hc])]
    rw [ih fun d hd => ha d (List.mem_cons_of_mem c hd)]

/-- C10: `DemoPage` produces one stylesheet link per listed font, keyed by the
font name; the href is the fixed cdnjs Font Awesome 4.6.3 URL for the name
`"Font Awesome"` and otherwise the Google Fonts css2 URL with every run of
whitespace in the name replaced by a single `"+"` (the `a`/`w`/`b`
decomposition exhibits one maximal whitespace run, and the replacement output
never retains whitespace). -/
theorem demoPage_font_links_spec (fonts : List String) (i : Nat)
    (h : i < fonts.length) (a w b : List Char)
    (ha : ∀ c ∈ a, isWs c = false) (hw : ∀ c ∈ w, isWs c = true) (hw0 : w ≠ [])
    (hb : b.head?.all (fun c => !isWs c) = true) :
    (demoPageFontLinks fonts).length = fonts.length ∧
    (demoPageFontLinks fonts)[i]? =
      some { key := fonts.get ⟨i, h⟩, rel := "stylesheet",
             href := fontHref (fonts.get ⟨i, h⟩) } ∧
    fontHref "Font Awesome" =
      "https://cdnjs.cloudflare.com/ajax/libs/font-awesome/4.6.3/css/font-awesome.min.css" ∧
    (∀ f : String, f ≠ "Font Awesome" →
      fontHref f = "https://fonts.googleapis.com/css2?family=" ++
        String.mk (replaceWsRuns f.data) ++ "&display=swap") ∧
    replaceWsRuns (a ++ w ++ b) = a ++ '+' :: replaceWsRuns b ∧
    (∀ c ∈ replaceWsRuns (a ++ w ++ b), isWs c = false) := by
  refine ⟨?_, ?_, rfl, ?_, replaceWsRuns_collapse a w b ha hw hw0 hb,
    replaceWsRuns_no_ws (a ++ w ++ b)⟩
  · simp [demoPageFontLinks]
  · simp [demoPageFontLinks, List.getElem?_map, List.getElem?_eq_getElem h,
      List.get_eq_getElem]
  · intro f hf
    simp [fontHref, hf]

/-- Witness for C10 at `fonts = ["Font Awesome", "Roboto Mono"]`, `i = 1`. -/
theorem demoPage_font_links_spec_witness :
    (demoPageFontLinks ["Font Awesome", "Roboto Mono"])[1]? =
      some { key := "Roboto Mono", rel := "stylesheet",
             href := fontHref "Roboto Mono" } :=
  (demoPage_font_links_spec ["Font Awesome", "Roboto Mono"] 1 (by decide)
    "Roboto".data [' '] "Mono".data (by decide) (by decide) (by decide)
    (by decide)).2.1

end ReactMD
